import Mathlib

/-!
Shallow embedding of the client-side data layer of the Employee Management
System frontend (React components `EmployeeForm`, `EmployeeList`, `SearchBar`,
`Dashboard`, and the axios service wrapper `employeeService`).

Each handler is modelled as a pure function from its inputs plus an explicit
gateway-response value (the outcome of the awaited HTTP call) to a record of
its observable effects: the list of gateway calls issued, the toast
notifications produced, and the state updates performed.
-/

namespace EMS

/-- Model of the JavaScript whitespace class `\s` on a character. -/
def jsIsWS (c : Char) : Bool := c.isWhitespace

/-- Model of `String.prototype.trim()`: strip leading and trailing whitespace. -/
def jsTrim (s : String) : String :=
  String.mk (((s.toList.dropWhile jsIsWS).reverse.dropWhile jsIsWS).reverse)

/-- A JavaScript number arising from parsing a decimal literal, kept in exact
scaled-integer form: the denoted value is `mantissa / 10 ^ exp`.  The API only
carries decimal salary literals, so this exact model covers every value the
claims touch. -/
structure JsNumber where
  mantissa : Int
  exp : Nat
  deriving DecidableEq

/-- The number is strictly negative (sign of the exact value). -/
def JsNumber.isNeg (n : JsNumber) : Bool := decide (n.mantissa < 0)

/-- Value of a digit run, most significant first. -/
def digitsVal (cs : List Char) : Nat :=
  cs.foldl (fun n c => n * 10 + (c.toNat - 48)) 0

/-- Parse an unsigned decimal literal `digits [ '.' digits ]` (at least one
digit overall), the shape a `<input type="number">` value takes. -/
def parseDecimal (cs : List Char) : Option JsNumber :=
  let ip := cs.takeWhile Char.isDigit
  let rest := cs.dropWhile Char.isDigit
  match rest with
  | [] => if ip.isEmpty then none else some ⟨(digitsVal ip : Int), 0⟩
  | '.' :: frac =>
    if frac.all Char.isDigit && !(ip.isEmpty && frac.isEmpty) then
      some ⟨(digitsVal ip * 10 ^ frac.length + digitsVal frac : Int), frac.length⟩
    else none
  | _ => none

/-- Model of JavaScript numeric conversion (`ToNumber` in `salary < 0`, and
`parseFloat` in submit normalization) on the value space of a number input:
an optional `-` sign followed by a decimal literal.  `none` stands for `NaN`
(which compares false against `0` and serializes to `null`). -/
def jsParseNumber (s : String) : Option JsNumber :=
  match s.toList with
  | '-' :: rest => (parseDecimal rest).map (fun n => ⟨-n.mantissa, n.exp⟩)
  | cs => parseDecimal cs

/-- The list starts with a non-whitespace character. -/
def headNonWS : List Char → Bool
  | c :: _ => !jsIsWS c
  | [] => false

/-- After at least one `\S` has been read past the `@`: scan the contiguous
non-whitespace run for a `.` that is immediately followed by `\S`. -/
def findDot : List Char → Bool
  | [] => false
  | c :: rest => (c == '.' && headNonWS rest) || (!jsIsWS c && findDot rest)

/-- Match `\S+\.\S+` against the characters directly following the `@`. -/
def afterAt : List Char → Bool
  | [] => false
  | c :: rest => !jsIsWS c && findDot rest

/-- Search (anywhere in the list) for `\S+@\S+\.\S+`: a non-whitespace
character directly before an `@`, then `afterAt` on the remainder. -/
def emailSearch : List Char → Bool
  | [] => false
  | c :: rest =>
    (!jsIsWS c &&
      (match rest with
       | '@' :: tl => afterAt tl
       | _ => false))
    || emailSearch rest

/-- Model of `/\S+@\S+\.\S+/.test(s)` from `validateForm`. -/
def emailRegexTest (s : String) : Bool := emailSearch s.toList

/-- The `formData` state of `EmployeeForm`: every text input holds a string,
`is_active` is the checkbox boolean.  (When a draft is seeded from an existing
record, `salary` may transiently be a JS number; it behaves identically to its
decimal-string rendering in every use — truthiness, `< 0`, `parseFloat` — so
the field is modelled as the string.) -/
structure FormData where
  employee_id : String
  first_name : String
  last_name : String
  email : String
  phone : String
  department : String
  position : String
  salary : String
  hire_date : String
  is_active : Bool
  deriving DecidableEq

/-- The `newErrors` mapping built by `validateForm`: a key is present exactly
when the corresponding rule fired. -/
structure FormErrors where
  employee_id : Option String
  first_name : Option String
  last_name : Option String
  email : Option String
  salary : Option String
  deriving DecidableEq

/-- `validateForm` from `EmployeeForm`: each rule is an independent `if`
writing its own key of `newErrors`. -/
def validateForm (fd : FormData) : FormErrors :=
  ⟨(if jsTrim fd.employee_id = "" then some "Employee ID is required" else none),
   (if jsTrim fd.first_name = "" then some "First name is required" else none),
   (if jsTrim fd.last_name = "" then some "Last name is required" else none),
   (if jsTrim fd.email = "" then some "Email is required"
    else if !emailRegexTest fd.email then some "Email is invalid" else none),
   (if fd.salary = "" then none
    else match jsParseNumber fd.salary with
      | some n => if n.isNeg then some "Salary must be positive" else none
      | none => none)⟩

/-- `Object.keys(newErrors).length === 0` negated: some rule fired. -/
def hasErrors (e : FormErrors) : Bool :=
  e.employee_id.isSome || e.first_name.isSome || e.last_name.isSome ||
  e.email.isSome || e.salary.isSome

/-- A persisted employee record as returned by the backend.  `salary` is an
optional decimal; the claims never depend on fractional salaries, so it is
modelled as an integral amount. -/
structure Employee where
  id : Nat
  employee_id : String
  first_name : String
  last_name : String
  email : String
  phone : Option String
  department : Option String
  position : Option String
  salary : Option Int
  hire_date : Option String
  is_active : Bool
  deriving DecidableEq

/-- Seeding of the `salary` input from a record: `employee.salary || ''` —
`null`/missing and the falsy number `0` both give the empty string, any other
number gives its decimal rendering. -/
def salaryToInput (v : Option Int) : String :=
  match v with
  | none => ""
  | some n => if n = 0 then "" else toString n

/-- The `useEffect` in `EmployeeForm` seeding `formData` from the `employee`
prop: each `employee.x || ''` is the field's value with `null` replaced by
`''`; `is_active !== undefined` always holds for a persisted record. -/
def seedFormData (employee : Employee) : FormData :=
  ⟨employee.employee_id, employee.first_name, employee.last_name, employee.email,
   employee.phone.getD "", employee.department.getD "", employee.position.getD "",
   salaryToInput employee.salary, employee.hire_date.getD "", employee.is_active⟩

/-- The `dataToSubmit` payload: `formData` spread with the optional fields
overridden.  `none` is JSON `null`/absent. -/
structure Payload where
  employee_id : String
  first_name : String
  last_name : String
  email : String
  phone : Option String
  department : Option String
  position : Option String
  salary : Option JsNumber
  hire_date : Option String
  is_active : Bool
  deriving DecidableEq

/-- `s || null` on a string field: the empty string is falsy. -/
def strOrNull (s : String) : Option String :=
  if s = "" then none else some s

/-- The normalization in `handleSubmit`: blank optional fields become `null`,
a truthy `salary` string is `parseFloat`ed (an unparseable value is `NaN`,
which serializes to `null`; `jsParseNumber` returns `none` there). -/
def dataToSubmit (fd : FormData) : Payload :=
  ⟨fd.employee_id, fd.first_name, fd.last_name, fd.email,
   strOrNull fd.phone, strOrNull fd.department, strOrNull fd.position,
   (if fd.salary = "" then none else jsParseNumber fd.salary),
   strOrNull fd.hire_date, fd.is_active⟩

/-- Query parameters of `GET /api/employees/`: a key is carried only when
present in the `params` object. -/
structure ListParams where
  department : Option String
  is_active : Option Bool
  deriving DecidableEq

/-- One invocation of an `employeeService` method, i.e. one HTTP round trip. -/
inductive GatewayCall where
  | getAllEmployees (params : ListParams)
  | getEmployee (id : Nat)
  | createEmployee (payload : Payload)
  | updateEmployee (id : Nat) (payload : Payload)
  | deleteEmployee (id : Nat)
  | deactivateEmployee (id : Nat)
  | activateEmployee (id : Nat)
  | searchEmployees (q : String)
  deriving DecidableEq

/-- A `react-toastify` notification with its tone. -/
inductive Toast where
  | success (msg : String)
  | error (msg : String)
  | info (msg : String)
  deriving DecidableEq

/-- Outcome of the awaited create/update call in `handleSubmit`: success, or a
rejection carrying `error.response?.data?.detail` when the server supplied
one. -/
inductive SubmitResponse where
  | ok
  | err (detail : Option String)
  deriving DecidableEq

/-- `error.response?.data?.detail || 'Failed to save employee'`: a missing or
falsy (empty) detail falls back to the generic message. -/
def jsOrStr (v : Option String) (dflt : String) : String :=
  match v with
  | some s => if s = "" then dflt else s
  | none => dflt

/-- Observable effects of one `handleSubmit` run. -/
structure SubmitRun where
  calls : List GatewayCall
  toasts : List Toast
  errorsStored : FormErrors
  signaledSuccess : Bool
  closed : Bool
  draftAfter : FormData
  deriving DecidableEq

/-- `handleSubmit` from `EmployeeForm`: validate; on errors store them and
return without any call; otherwise build `dataToSubmit` and call
`updateEmployee(employee.id, ...)` when editing, else `createEmployee(...)`.
On success: success toast, `onSuccess()`, `onClose()`.  On failure: error
toast with the server detail or the generic fallback; the draft is kept. -/
def handleSubmit (employee : Option Employee) (fd : FormData)
    (resp : SubmitResponse) : SubmitRun :=
  let errs := validateForm fd
  if hasErrors errs then
    ⟨[], [], errs, false, false, fd⟩
  else
    let payload := dataToSubmit fd
    match employee, resp with
    | some emp, SubmitResponse.ok =>
      ⟨[GatewayCall.updateEmployee emp.id payload],
       [Toast.success "Employee updated successfully"], errs, true, true, fd⟩
    | none, SubmitResponse.ok =>
      ⟨[GatewayCall.createEmployee payload],
       [Toast.success "Employee created successfully"], errs, true, true, fd⟩
    | some emp, SubmitResponse.err d =>
      ⟨[GatewayCall.updateEmployee emp.id payload],
       [Toast.error (jsOrStr d "Failed to save employee")], errs, false, false, fd⟩
    | none, SubmitResponse.err d =>
      ⟨[GatewayCall.createEmployee payload],
       [Toast.error (jsOrStr d "Failed to save employee")], errs, false, false, fd⟩

/-- `Dashboard.handleFormSuccess`: the refresh signal observed by
`EmployeeList` is the incremented `refreshKey`. -/
def handleFormSuccess (refreshKey : Nat) : Nat := refreshKey + 1

/-- `disabled={employee !== null}` on the Employee ID input. -/
def employeeIdInputDisabled (employee : Option Employee) : Bool :=
  employee.isSome

/-- The `filters` state of `EmployeeList`: both selects hold strings,
`''` meaning unset and `is_active` otherwise `'true'`/`'false'`. -/
structure Filters where
  department : String
  is_active : String
  deriving DecidableEq

/-- The `params` object built at the top of `fetchEmployees`: `department` is
added when truthy (non-empty); `is_active` is added as the boolean
`filters.is_active === 'true'` when the string differs from `''`. -/
def buildListParams (filters : Filters) : ListParams :=
  ⟨(if filters.department = "" then none else some filters.department),
   (if filters.is_active = "" then none else some (filters.is_active == "true"))⟩

/-- Local state of `EmployeeList`. -/
structure ListState where
  employees : List Employee
  loading : Bool
  filters : Filters
  deriving DecidableEq

/-- Outcome of the awaited `getAllEmployees` call: the response body's
`employees` array (possibly missing), or a rejection. -/
inductive ListResponse where
  | ok (employees : Option (List Employee))
  | err
  deriving DecidableEq

/-- Observable effects of one `fetchEmployees` run. -/
structure ListRun where
  state : ListState
  toasts : List Toast
  calls : List GatewayCall
  deriving DecidableEq

/-- `fetchEmployees` from `EmployeeList`: call `getAllEmployees` with the
params built from the filters; on success replace the collection with
`data.employees || []`; on failure toast an error and keep the collection. -/
def fetchEmployees (st : ListState) (resp : ListResponse) : ListRun :=
  let call := GatewayCall.getAllEmployees (buildListParams st.filters)
  match resp with
  | ListResponse.ok emps => ⟨⟨emps.getD [], false, st.filters⟩, [], [call]⟩
  | ListResponse.err =>
    ⟨⟨st.employees, false, st.filters⟩, [Toast.error "Failed to fetch employees"], [call]⟩

/-- Outcome of an awaited mutation call (delete / activate / deactivate). -/
inductive MutResponse where
  | ok
  | err
  deriving DecidableEq

/-- Observable effects of a per-row action: gateway calls, toasts, and how
many times `fetchEmployees()` was re-invoked afterwards. -/
structure RowActionRun where
  calls : List GatewayCall
  toasts : List Toast
  refetches : Nat
  deriving DecidableEq

/-- `handleDelete` from `EmployeeList`: a `window.confirm` gate; when
confirmed, `deleteEmployee(id)`, then on success a success toast and one
`fetchEmployees()`; on failure an error toast and nothing else. -/
def handleDelete (confirmed : Bool) (id : Nat) (employeeName : String)
    (resp : MutResponse) : RowActionRun :=
  if confirmed then
    match resp with
    | MutResponse.ok =>
      ⟨[GatewayCall.deleteEmployee id],
       [Toast.success "Employee deleted successfully"], 1⟩
    | MutResponse.err =>
      ⟨[GatewayCall.deleteEmployee id],
       [Toast.error "Failed to delete employee"], 0⟩
  else ⟨[], [], 0⟩

/-- `handleToggleStatus` from `EmployeeList`: `deactivateEmployee` when the
current status is active, else `activateEmployee`; on success a name-bearing
status-specific toast and one `fetchEmployees()`; on failure an error toast. -/
def handleToggleStatus (id : Nat) (currentStatus : Bool) (employeeName : String)
    (resp : MutResponse) : RowActionRun :=
  match currentStatus, resp with
  | true, MutResponse.ok =>
    ⟨[GatewayCall.deactivateEmployee id],
     [Toast.success (employeeName ++ " deactivated")], 1⟩
  | false, MutResponse.ok =>
    ⟨[GatewayCall.activateEmployee id],
     [Toast.success (employeeName ++ " activated")], 1⟩
  | true, MutResponse.err =>
    ⟨[GatewayCall.deactivateEmployee id],
     [Toast.error "Failed to update status"], 0⟩
  | false, MutResponse.err =>
    ⟨[GatewayCall.activateEmployee id],
     [Toast.error "Failed to update status"], 0⟩

/-- Outcome of the awaited `searchEmployees` call. -/
inductive SearchResponse where
  | ok (results : List Employee)
  | err
  deriving DecidableEq

/-- Observable effects of one `handleSearch` run; `forwarded` is the argument
of the `onSearchResults` callback when it was invoked, `none` when it was
not (prior results stay untouched). -/
structure SearchRun where
  calls : List GatewayCall
  toasts : List Toast
  forwarded : Option (List Employee)
  deriving DecidableEq

/-- `handleSearch` from `SearchBar`: reject a blank (trimmed-empty) term with
an info toast and no call; otherwise call `searchEmployees(searchTerm)` with
the original term, forward the results, and toast the count (info for zero,
success otherwise); on failure toast an error and forward nothing. -/
def handleSearch (searchTerm : String) (resp : SearchResponse) : SearchRun :=
  if jsTrim searchTerm = "" then
    ⟨[], [Toast.info "Please enter a search term"], none⟩
  else
    match resp with
    | SearchResponse.ok results =>
      ⟨[GatewayCall.searchEmployees searchTerm],
       [(if results.length = 0 then
           Toast.info "No employees found matching your search"
         else
           Toast.success ("Found " ++ toString results.length ++ " employee(s)"))],
       some results⟩
    | SearchResponse.err =>
      ⟨[GatewayCall.searchEmployees searchTerm],
       [Toast.error "Failed to search employees"], none⟩

/-- The `stats` state of `Dashboard`. -/
structure Stats where
  total : Nat
  active : Nat
  inactive : Nat
  deriving DecidableEq

/-- Outcome of the three awaited `getAllEmployees` calls in `fetchStats`:
the three `total` counts, or a rejection of any of them. -/
inductive StatsResponse where
  | ok (allTotal activeTotal inactiveTotal : Nat)
  | err
  deriving DecidableEq

/-- `fetchStats` from `Dashboard`: on success replace the stats with the three
totals; on failure only `console.error` runs — no toast, and `setStats` is
never reached, so the previous stats stay displayed. -/
def fetchStats (st : Stats) (resp : StatsResponse) : Stats × List Toast :=
  match resp with
  | StatsResponse.ok a b c => (⟨a, b, c⟩, [])
  | StatsResponse.err => (st, [])

/-- C1: whenever any of `employee_id`, `first_name`, `last_name`, `email` is
empty or whitespace-only, `validateForm` returns a non-empty error mapping
carrying the corresponding required-field message, and `handleSubmit` stores
those errors and issues no Gateway call. -/
theorem c1_required_field_blocks_submit (employee : Option Employee)
    (fd : FormData) (resp : SubmitResponse)
    (h : jsTrim fd.employee_id = "" ∨ jsTrim fd.first_name = "" ∨
         jsTrim fd.last_name = "" ∨ jsTrim fd.email = "") :
    hasErrors (validateForm fd) = true
    ∧ (jsTrim fd.employee_id = "" →
        (validateForm fd).employee_id = some "Employee ID is required")
    ∧ (jsTrim fd.first_name = "" →
        (validateForm fd).first_name = some "First name is required")
    ∧ (jsTrim fd.last_name = "" →
        (validateForm fd).last_name = some "Last name is required")
    ∧ (jsTrim fd.email = "" →
        (validateForm fd).email = some "Email is required")
    ∧ (handleSubmit employee fd resp).calls = []
    ∧ (handleSubmit employee fd resp).errorsStored = validateForm fd := by
  have hv : hasErrors (validateForm fd) = true := by
    rcases h with h | h | h | h <;> simp [validateForm, hasErrors, h]
  refine ⟨hv, ?_, ?_, ?_, ?_, ?_, ?_⟩
  · intro h1; simp [validateForm, h1]
  · intro h1; simp [validateForm, h1]
  · intro h1; simp [validateForm, h1]
  · intro h1; simp [validateForm, h1]
  · simp [handleSubmit, hv]
  · simp [handleSubmit, hv]

/-- C1 witness: a draft with a blank Employee ID is rejected locally and
submit issues no call. -/
theorem c1_required_field_blocks_submit_witness :
    hasErrors (validateForm ⟨"  ", "Ann", "Lee", "ann@x.com", "", "", "", "", "", true⟩) = true
    ∧ (handleSubmit none ⟨"  ", "Ann", "Lee", "ann@x.com", "", "", "", "", "", true⟩
        SubmitResponse.ok).calls = [] := by
  have h := c1_required_field_blocks_submit none
    ⟨"  ", "Ann", "Lee", "ann@x.com", "", "", "", "", "", true⟩
    SubmitResponse.ok (Or.inl (by decide))
  exact ⟨h.1, h.2.2.2.2.2.1⟩

/-- C2: the outgoing list request carries the `department` key exactly when a
department is selected (then with the selected value) and the `is_active` key,
as a boolean, exactly when the status filter is set; with filter
`is_active = 'true'` the request carries `is_active = true` and no
`department`; with an empty filter neither key is sent; and `fetchEmployees`
issues exactly the `getAllEmployees` call with those params. -/
theorem c2_filter_key_omission (filters : Filters) (st : ListState)
    (resp : ListResponse) :
    ((buildListParams filters).department = none ↔ filters.department = "")
    ∧ ((buildListParams filters).department ≠ none →
        (buildListParams filters).department = some filters.department)
    ∧ ((buildListParams filters).is_active = none ↔ filters.is_active = "")
    ∧ ((buildListParams filters).is_active ≠ none →
        (buildListParams filters).is_active = some (filters.is_active == "true"))
    ∧ buildListParams ⟨"", "true"⟩ = ⟨none, some true⟩
    ∧ buildListParams ⟨"", ""⟩ = ⟨none, none⟩
    ∧ (fetchEmployees st resp).calls =
        [GatewayCall.getAllEmployees (buildListParams st.filters)] := by
  refine ⟨?_, ?_, ?_, ?_, by decide, by decide, ?_⟩
  · by_cases h : filters.department = "" <;> simp [buildListParams, h]
  · by_cases h : filters.department = "" <;> simp [buildListParams, h]
  · by_cases h : filters.is_active = "" <;> simp [buildListParams, h]
  · by_cases h : filters.is_active = "" <;> simp [buildListParams, h]
  · cases resp <;> simp [fetchEmployees]

/-- C2 witness: concrete filter states evaluated through the theorem. -/
theorem c2_filter_key_omission_witness :
    buildListParams ⟨"", "true"⟩ = ⟨none, some true⟩
    ∧ (fetchEmployees ⟨[], true, ⟨"", "true"⟩⟩ (ListResponse.ok none)).calls =
        [GatewayCall.getAllEmployees ⟨none, some true⟩] := by
  have h := c2_filter_key_omission ⟨"", "true"⟩ ⟨[], true, ⟨"", "true"⟩⟩
    (ListResponse.ok none)
  exact ⟨h.2.2.2.2.1, h.2.2.2.2.2.2⟩

/-- C3: a draft that passes validation is submitted as a normalized payload —
each blank optional field is absent rather than an empty string, a non-blank
salary is the parsed numeric value — via `updateEmployee(id, ...)` when
editing and `createEmployee(...)` otherwise, and on success the controller
signals success (the refresh-key increment) and dismisses the view. -/
theorem c3_normalized_submit (employee : Option Employee) (fd : FormData)
    (hok : hasErrors (validateForm fd) = false) :
    (fd.phone = "" → (dataToSubmit fd).phone = none)
    ∧ (fd.department = "" → (dataToSubmit fd).department = none)
    ∧ (fd.position = "" → (dataToSubmit fd).position = none)
    ∧ (fd.hire_date = "" → (dataToSubmit fd).hire_date = none)
    ∧ (fd.salary = "" → (dataToSubmit fd).salary = none)
    ∧ (fd.salary ≠ "" → (dataToSubmit fd).salary = jsParseNumber fd.salary)
    ∧ (∀ emp, employee = some emp →
        (handleSubmit employee fd SubmitResponse.ok).calls =
          [GatewayCall.updateEmployee emp.id (dataToSubmit fd)])
    ∧ (employee = none →
        (handleSubmit employee fd SubmitResponse.ok).calls =
          [GatewayCall.createEmployee (dataToSubmit fd)])
    ∧ (handleSubmit employee fd SubmitResponse.ok).signaledSuccess = true
    ∧ (handleSubmit employee fd SubmitResponse.ok).closed = true
    ∧ (∀ k, handleFormSuccess k = k + 1) := by
  refine ⟨?_, ?_, ?_, ?_, ?_, ?_, ?_, ?_, ?_, ?_, fun _ => rfl⟩
  · intro h1; simp [dataToSubmit, strOrNull, h1]
  · intro h1; simp [dataToSubmit, strOrNull, h1]
  · intro h1; simp [dataToSubmit, strOrNull, h1]
  · intro h1; simp [dataToSubmit, strOrNull, h1]
  · intro h1; simp [dataToSubmit, h1]
  · intro h1; simp [dataToSubmit, h1]
  · intro emp h1; subst h1; simp [handleSubmit, hok]
  · intro h1; subst h1; simp [handleSubmit, hok]
  · cases employee <;> simp [handleSubmit, hok]
  · cases employee <;> simp [handleSubmit, hok]

/-- C3 witness: the create scenario `{employee_id: E100, first_name: Ann,
last_name: Lee, email: ann@x.com, is_active: true}` — all optional fields
absent in the payload, one `createEmployee` call, success signalled. -/
theorem c3_normalized_submit_witness :
    hasErrors (validateForm ⟨"E100", "Ann", "Lee", "ann@x.com", "", "", "", "", "", true⟩) = false
    ∧ (handleSubmit none ⟨"E100", "Ann", "Lee", "ann@x.com", "", "", "", "", "", true⟩
        SubmitResponse.ok).calls =
        [GatewayCall.createEmployee
          ⟨"E100", "Ann", "Lee", "ann@x.com", none, none, none, none, none, true⟩]
    ∧ (handleSubmit none ⟨"E100", "Ann", "Lee", "ann@x.com", "", "", "", "", "", true⟩
        SubmitResponse.ok).signaledSuccess = true := by
  have h := c3_normalized_submit none
    ⟨"E100", "Ann", "Lee", "ann@x.com", "", "", "", "", "", true⟩ (by decide)
  refine ⟨by decide, ?_, h.2.2.2.2.2.2.2.2.1⟩
  have h2 := h.2.2.2.2.2.2.2.1 rfl
  simpa [dataToSubmit, strOrNull] using h2

/-- C4 counterexample: the claim says every controller operation whose Gateway
call fails produces exactly one user-facing notification, but a failing
`fetchStats` run produces none at all (it only logs): at stats `⟨5, 3, 2⟩` the
error path yields an empty toast list (and leaves the stats in place). -/
theorem c4_counterexample :
    (fetchStats ⟨5, 3, 2⟩ StatsResponse.err).2 = []
    ∧ (fetchStats ⟨5, 3, 2⟩ StatsResponse.err).1 = ⟨5, 3, 2⟩ := by
  exact ⟨rfl, rfl⟩

/-- C4 amended: every controller operation catches its Gateway failure at the
call site and leaves the previously displayed state (form draft, record
collection, stats) in place; each failing operation produces exactly one
user-facing notification, except the Dashboard stats fetch, which produces
none. -/
theorem c4_errors_caught (st : ListState) (employee : Option Employee)
    (fd : FormData) (d : Option String) (id : Nat) (name : String)
    (q : String) (stats : Stats)
    (hfd : hasErrors (validateForm fd) = false) (hq : jsTrim q ≠ "") :
    ((fetchEmployees st ListResponse.err).state.employees = st.employees
      ∧ (fetchEmployees st ListResponse.err).toasts =
          [Toast.error "Failed to fetch employees"])
    ∧ ((handleSubmit employee fd (SubmitResponse.err d)).draftAfter = fd
      ∧ (handleSubmit employee fd (SubmitResponse.err d)).closed = false
      ∧ (handleSubmit employee fd (SubmitResponse.err d)).toasts =
          [Toast.error (jsOrStr d "Failed to save employee")])
    ∧ ((handleDelete true id name MutResponse.err).toasts =
          [Toast.error "Failed to delete employee"]
      ∧ (handleDelete true id name MutResponse.err).refetches = 0)
    ∧ (∀ b, (handleToggleStatus id b name MutResponse.err).toasts =
          [Toast.error "Failed to update status"]
      ∧ (handleToggleStatus id b name MutResponse.err).refetches = 0)
    ∧ ((handleSearch q SearchResponse.err).toasts =
          [Toast.error "Failed to search employees"]
      ∧ (handleSearch q SearchResponse.err).forwarded = none)
    ∧ ((fetchStats stats StatsResponse.err).1 = stats
      ∧ (fetchStats stats StatsResponse.err).2 = []) := by
  refine ⟨⟨rfl, rfl⟩, ⟨?_, ?_, ?_⟩, ⟨rfl, rfl⟩, ?_, ⟨?_, ?_⟩, rfl, rfl⟩
  · cases employee <;> simp [handleSubmit, hfd]
  · cases employee <;> simp [handleSubmit, hfd]
  · cases employee <;> simp [handleSubmit, hfd]
  · intro b; cases b <;> exact ⟨rfl, rfl⟩
  · simp [handleSearch, hq]
  · simp [handleSearch, hq]

/-- C4 amended witness: the error paths at concrete inputs. -/
theorem c4_errors_caught_witness :
    (handleSubmit none ⟨"E100", "Ann", "Lee", "ann@x.com", "", "", "", "", "", true⟩
        (SubmitResponse.err none)).toasts = [Toast.error "Failed to save employee"]
    ∧ (handleSearch "doe" SearchResponse.err).forwarded = none
    ∧ (fetchStats ⟨1, 1, 0⟩ StatsResponse.err).2 = [] := by
  have h := c4_errors_caught ⟨[], true, ⟨"", ""⟩⟩ none
    ⟨"E100", "Ann", "Lee", "ann@x.com", "", "", "", "", "", true⟩ none 7 "Jane Doe"
    "doe" ⟨1, 1, 0⟩ (by decide) (by decide)
  exact ⟨by simpa [jsOrStr] using h.2.1.2.2, h.2.2.2.2.1.2, h.2.2.2.2.2.2⟩

/-- C5: a trimmed-empty query yields the enter-a-search-term info toast and no
network call; an empty result set is forwarded with the no-employees-found
toast; a non-empty result set is forwarded exactly with a count-bearing
success toast; a failed call yields a failure toast and forwards nothing, so
the prior results stay untouched. -/
theorem c5_search_outcomes (q : String) (rs : List Employee)
    (resp : SearchResponse) (hq : jsTrim q ≠ "") :
    (∀ q0, jsTrim q0 = "" →
      handleSearch q0 resp = ⟨[], [Toast.info "Please enter a search term"], none⟩)
    ∧ handleSearch q (SearchResponse.ok []) =
        ⟨[GatewayCall.searchEmployees q],
         [Toast.info "No employees found matching your search"], some []⟩
    ∧ (rs ≠ [] → handleSearch q (SearchResponse.ok rs) =
        ⟨[GatewayCall.searchEmployees q],
         [Toast.success ("Found " ++ toString rs.length ++ " employee(s)")],
         some rs⟩)
    ∧ handleSearch q SearchResponse.err =
        ⟨[GatewayCall.searchEmployees q],
         [Toast.error "Failed to search employees"], none⟩ := by
  refine ⟨?_, ?_, ?_, ?_⟩
  · intro q0 h0; simp [handleSearch, h0]
  · simp [handleSearch, hq]
  · intro hrs; simp [handleSearch, hq, List.length_eq_zero, hrs]
  · simp [handleSearch, hq]

/-- C5 witness: concrete searches — blank query, zero results, two results. -/
theorem c5_search_outcomes_witness :
    handleSearch "  " (SearchResponse.ok []) =
      ⟨[], [Toast.info "Please enter a search term"], none⟩
    ∧ handleSearch "doe" (SearchResponse.ok []) =
      ⟨[GatewayCall.searchEmployees "doe"],
       [Toast.info "No employees found matching your search"], some []⟩
    ∧ handleSearch "doe"
        (SearchResponse.ok [⟨1, "E1", "Jane", "Doe", "j@d.co", none, none, none, none, none, true⟩,
                            ⟨2, "E2", "Jon", "Doe", "o@d.co", none, none, none, none, none, true⟩]) =
      ⟨[GatewayCall.searchEmployees "doe"],
       [Toast.success "Found 2 employee(s)"],
       some [⟨1, "E1", "Jane", "Doe", "j@d.co", none, none, none, none, none, true⟩,
             ⟨2, "E2", "Jon", "Doe", "o@d.co", none, none, none, none, none, true⟩]⟩ := by
  have h := c5_search_outcomes "doe"
    [⟨1, "E1", "Jane", "Doe", "j@d.co", none, none, none, none, none, true⟩,
     ⟨2, "E2", "Jon", "Doe", "o@d.co", none, none, none, none, none, true⟩]
    (SearchResponse.ok []) (by decide)
  refine ⟨h.1 "  " (by decide), h.2.1, ?_⟩
  have h2 := h.2.2.1 (by decide)
  simpa using h2

/-- C6: the validator's rules are independent — each error component is a
function of its own field only; a non-empty email failing the pattern yields
the invalid-email message while `a@b.co` yields none; a present numerically
negative salary yields the positive-salary message while `0` and blank yield
none. -/
theorem c6_validator_independent (fd fd2 : FormData)
    (hne : jsTrim fd.email ≠ "") (hbad : emailRegexTest fd.email = false) :
    (validateForm fd).email = some "Email is invalid"
    ∧ (∀ g : FormData, g.email = "a@b.co" → (validateForm g).email = none)
    ∧ (∀ g : FormData, g.salary = "-5" →
        (validateForm g).salary = some "Salary must be positive")
    ∧ (∀ g : FormData, g.salary = "0" → (validateForm g).salary = none)
    ∧ (∀ g : FormData, g.salary = "" → (validateForm g).salary = none)
    ∧ (fd.employee_id = fd2.employee_id →
        (validateForm fd).employee_id = (validateForm fd2).employee_id)
    ∧ (fd.first_name = fd2.first_name →
        (validateForm fd).first_name = (validateForm fd2).first_name)
    ∧ (fd.last_name = fd2.last_name →
        (validateForm fd).last_name = (validateForm fd2).last_name)
    ∧ (fd.email = fd2.email → (validateForm fd).email = (validateForm fd2).email)
    ∧ (fd.salary = fd2.salary →
        (validateForm fd).salary = (validateForm fd2).salary) := by
  refine ⟨by simp [validateForm, hne, hbad], ?_, ?_, ?_, ?_, ?_, ?_, ?_, ?_, ?_⟩
  · intro g hg; simp [validateForm, hg]; decide
  · intro g hg; simp [validateForm, hg]; decide
  · intro g hg; simp [validateForm, hg]; decide
  · intro g hg; simp [validateForm, hg]
  · intro h1; simp [validateForm, h1]
  · intro h1; simp [validateForm, h1]
  · intro h1; simp [validateForm, h1]
  · intro h1; simp [validateForm, h1]
  · intro h1; simp [validateForm, h1]

/-- C6 witness: a draft violating every rule at once collects every message —
no rule suppresses another. -/
theorem c6_validator_independent_witness :
    validateForm ⟨"", " ", "", "not-an-email", "", "", "", "-5", "", true⟩ =
      ⟨some "Employee ID is required", some "First name is required",
       some "Last name is required", some "Email is invalid",
       some "Salary must be positive"⟩
    ∧ (validateForm ⟨"E1", "A", "B", "a@b.co", "", "", "", "0", "", true⟩).email = none
    ∧ (validateForm ⟨"E1", "A", "B", "a@b.co", "", "", "", "0", "", true⟩).salary = none := by
  have h := c6_validator_independent
    ⟨"", " ", "", "not-an-email", "", "", "", "-5", "", true⟩
    ⟨"", " ", "", "not-an-email", "", "", "", "-5", "", true⟩
    (by decide) (by decide)
  refine ⟨?_, h.2.1 ⟨"E1", "A", "B", "a@b.co", "", "", "", "0", "", true⟩ rfl,
          h.2.2.2.1 ⟨"E1", "A", "B", "a@b.co", "", "", "", "0", "", true⟩ rfl⟩
  have h1 := h.1
  have h2 := h.2.2.1 ⟨"", " ", "", "not-an-email", "", "", "", "-5", "", true⟩ rfl
  decide

/-- C7: an unconfirmed delete issues no Gateway call, no toast and no
re-fetch; a confirmed delete issues exactly one `deleteEmployee(id)` call,
and on success exactly one re-fetch with a success toast, while on failure a
failure toast and no re-fetch (no local mutation). -/
theorem c7_delete_confirmation (id : Nat) (name : String) (resp : MutResponse) :
    handleDelete false id name resp = ⟨[], [], 0⟩
    ∧ handleDelete true id name MutResponse.ok =
        ⟨[GatewayCall.deleteEmployee id],
         [Toast.success "Employee deleted successfully"], 1⟩
    ∧ handleDelete true id name MutResponse.err =
        ⟨[GatewayCall.deleteEmployee id],
         [Toast.error "Failed to delete employee"], 0⟩ := by
  refine ⟨?_, rfl, rfl⟩
  cases resp <;> rfl

/-- C8: `handleToggleStatus` calls `deactivateEmployee(id)` when the current
status is active and `activateEmployee(id)` otherwise; on success one re-fetch
and the status-specific name-bearing toast; on failure a failure toast and no
success-path notification. -/
theorem c8_toggle_status (id : Nat) (name : String) :
    handleToggleStatus id true name MutResponse.ok =
      ⟨[GatewayCall.deactivateEmployee id],
       [Toast.success (name ++ " deactivated")], 1⟩
    ∧ handleToggleStatus id false name MutResponse.ok =
      ⟨[GatewayCall.activateEmployee id],
       [Toast.success (name ++ " activated")], 1⟩
    ∧ handleToggleStatus id true name MutResponse.err =
      ⟨[GatewayCall.deactivateEmployee id],
       [Toast.error "Failed to update status"], 0⟩
    ∧ handleToggleStatus id false name MutResponse.err =
      ⟨[GatewayCall.activateEmployee id],
       [Toast.error "Failed to update status"], 0⟩ :=
  ⟨rfl, rfl, rfl, rfl⟩

/-- C9: for a non-blank query, the `q` parameter sent to `searchEmployees` is
the original untrimmed string — trimming feeds only the emptiness check. -/
theorem c9_untrimmed_query_sent (q : String) (resp : SearchResponse)
    (hq : jsTrim q ≠ "") :
    (handleSearch q resp).calls = [GatewayCall.searchEmployees q] := by
  cases resp <;> simp [handleSearch, hq]

/-- C9 witness: the padded query `" doe "` is sent verbatim. -/
theorem c9_untrimmed_query_sent_witness :
    (handleSearch " doe " (SearchResponse.ok [])).calls =
      [GatewayCall.searchEmployees " doe "] :=
  c9_untrimmed_query_sent " doe " (SearchResponse.ok []) (by decide)

/-- C10: an edit submit passes a payload that still carries `employee_id`
(spread from the draft seeded with the record's value) and `is_active`;
write-once `employee_id` is enforced only by disabling the input when a record
is being edited. -/
theorem c10_update_keeps_employee_id (emp : Employee) (fd : FormData)
    (resp : SubmitResponse) (hok : hasErrors (validateForm fd) = false) :
    (dataToSubmit fd).employee_id = fd.employee_id
    ∧ (dataToSubmit fd).is_active = fd.is_active
    ∧ (handleSubmit (some emp) fd resp).calls =
        [GatewayCall.updateEmployee emp.id (dataToSubmit fd)]
    ∧ (seedFormData emp).employee_id = emp.employee_id
    ∧ employeeIdInputDisabled (some emp) = true
    ∧ employeeIdInputDisabled none = false := by
  refine ⟨rfl, rfl, ?_, rfl, rfl, rfl⟩
  cases resp <;> simp [handleSubmit, hok]

/-- C10 witness: editing record 7 with its seeded draft sends one update call
whose payload carries the record's `employee_id` and `is_active`. -/
theorem c10_update_keeps_employee_id_witness :
    (handleSubmit
        (some ⟨7, "E7", "Jane", "Doe", "j@d.co", none, none, none, none, none, true⟩)
        (seedFormData ⟨7, "E7", "Jane", "Doe", "j@d.co", none, none, none, none, none, true⟩)
        SubmitResponse.ok).calls =
      [GatewayCall.updateEmployee 7
        ⟨"E7", "Jane", "Doe", "j@d.co", none, none, none, none, none, true⟩]
    ∧ employeeIdInputDisabled
        (some ⟨7, "E7", "Jane", "Doe", "j@d.co", none, none, none, none, none, true⟩) = true := by
  have h := c10_update_keeps_employee_id
    ⟨7, "E7", "Jane", "Doe", "j@d.co", none, none, none, none, none, true⟩
    (seedFormData ⟨7, "E7", "Jane", "Doe", "j@d.co", none, none, none, none, none, true⟩)
    SubmitResponse.ok (by decide)
  refine ⟨?_, h.2.2.2.2.1⟩
  have h3 := h.2.2.1
  simpa [seedFormData, salaryToInput, dataToSubmit, strOrNull] using h3

end EMS
